import Mathlib

/-!
Verification of the `memstore` package of headwindfly/captchas
(src/memstore/store.go), a concurrent in-memory TTL key-value store for
captcha answers.

Shallow embedding conventions:
- Go `time.Duration` and `time.Time.UnixNano()` are modelled as `Int`
  nanosecond counts. Every call site of `time.Now()` in the Go code becomes
  an explicit `now : Int` parameter; a function that samples the clock once
  (such as `deleteExpired`) therefore takes a single `now` parameter used
  for all entries.
- The Go map `map[string]*item` is modelled as the function
  `String → Option item`; `delete` and assignment become pointwise updates.
- The mutex field `mu` and the goroutine running `gc` are concurrency
  plumbing with no sequential content and are not part of the embedding;
  `deleteExpired` (the body of one sweep pass) is embedded directly.
- The external sentinel errors `captchas.ErrIncorrectCaptcha` (the absent /
  NotFound case) and `captchas.ErrExpiredCaptcha` (the expired case) are
  modelled as the two constructors of `CaptchaError`.
- A Go `(string, error)` return value is modelled as
  `String × Option CaptchaError`: `(v, nil)` becomes `(v, none)` and
  `("", err)` becomes `("", some e)`. Operations additionally return the
  resulting store state.
-/

namespace Memstore

/-- One nanosecond, the unit of `time.Duration`. -/
def timeNanosecond : Int := 1

/-- `time.Minute` in nanoseconds. -/
def timeMinute : Int := 60 * 1000000000

/-- Go struct `item`: a stored captcha answer together with its absolute
expiration timestamp in Unix nanoseconds. -/
structure item where
  expiration : Int
  answer : String
deriving DecidableEq

/-- Go struct `store`: configuration plus the identifier-to-item mapping.
The mutex field is concurrency plumbing and is not modelled. -/
structure store where
  expiration : Int
  gcInterval : Int
  items : String → Option item

/-- Go type `Option`: a function mutating the store during construction. -/
def StoreOption := store → store

/-- Go function `Expiration`: functional option setting the expiration. -/
def Expiration (expiration : Int) : StoreOption :=
  fun s => { s with expiration := expiration }

/-- Go function `GCInterval`: functional option setting the sweep interval. -/
def GCInterval (interval : Int) : StoreOption :=
  fun s => { s with gcInterval := interval }

/-- Go function `New`: builds a store with defaults (expiration 10 minutes,
gc interval 1 minute, empty mapping) and applies the options in order. The
`go s.gc()` goroutine launch is concurrency plumbing and is not modelled. -/
def New (opts : List StoreOption) : store :=
  opts.foldl (fun s f => f s)
    { expiration := 10 * timeMinute
      gcInterval := timeMinute
      items := fun _ => none }

/-- The two sentinel errors of the external `captchas` package that this
store returns: `ErrIncorrectCaptcha` for an absent entry (the NotFound case
of the spec) and `ErrExpiredCaptcha` for an expired one. -/
inductive CaptchaError where
  | ErrIncorrectCaptcha
  | ErrExpiredCaptcha
deriving DecidableEq

/-- Go method `(*store).get`: look up `id`; absent gives
`ErrIncorrectCaptcha`; present but `now > expiration` gives
`ErrExpiredCaptcha`; otherwise the item. `now` is the single
`time.Now().UnixNano()` sample of the Go body. -/
def store.get (s : store) (id : String) (now : Int) : Except CaptchaError item :=
  match s.items id with
  | none => .error .ErrIncorrectCaptcha
  | some it =>
      if now > it.expiration then .error .ErrExpiredCaptcha else .ok it

/-- Go method `(*store).getAndDel`: under the exclusive lock, run `get`; on
error return the unchanged store; on success delete `id` from the mapping
and return the item. -/
def store.getAndDel (s : store) (id : String) (now : Int) :
    Except CaptchaError item × store :=
  match s.get id now with
  | .error e => (.error e, s)
  | .ok it =>
      (.ok it, { s with items := fun k => if k = id then none else s.items k })

/-- Go method `(*store).Get`: with `clear` true delegate to `getAndDel`,
otherwise run `get` under the shared lock; on error return `("", err)` and
on success the answer with a nil error. The result pairs the Go return
value `(string, error)` with the store state after the call. -/
def store.Get (s : store) (id : String) (clear : Bool) (now : Int) :
    (String × Option CaptchaError) × store :=
  if clear then
    match s.getAndDel id now with
    | (.error e, s2) => (("", some e), s2)
    | (.ok it, s2) => ((it.answer, none), s2)
  else
    match s.get id now with
    | .error e => (("", some e), s)
    | .ok it => ((it.answer, none), s)

/-- Go method `(*store).Set`: unconditionally map `id` to a fresh item with
the given answer and `expiration = now + s.expiration`, returning a nil
error. `now` is the single `time.Now()` sample of the Go body. -/
def store.Set (s : store) (id answer : String) (now : Int) :
    Option CaptchaError × store :=
  (none,
    { s with
        items := fun k =>
          if k = id then some { expiration := now + s.expiration, answer := answer }
          else s.items k })

/-- Go method `(*store).deleteExpired` (the body of one sweep pass): sample
`now` once, then delete every entry with `now > expiration` and keep every
other entry. Returns only the new store: the Go function has no error
result. -/
def store.deleteExpired (s : store) (now : Int) : store :=
  { s with
      items := fun k =>
        match s.items k with
        | none => none
        | some it => if now > it.expiration then none else some it }

/-- Concrete fixture item used by witness theorems. -/
def sampleItem : item := { expiration := 100, answer := "v" }

/-- Concrete fixture store used by witness theorems: expiration 1000 ns,
one live entry at key id1. -/
def sampleStore : store :=
  { expiration := 1000
    gcInterval := 50
    items := fun k => if k = "id1" then some sampleItem else none }

/-- C1: Set(id, v) followed immediately by Get(id, consume=false), at a
time at which the fresh entry has not expired, returns (v, nil). -/
theorem set_then_get_roundtrip (s : store) (id v : String) (n1 n2 : Int)
    (h : ¬ n2 > n1 + s.expiration) :
    (store.Get (store.Set s id v n1).2 id false n2).1 = (v, none) := by
  simp [store.Set, store.Get, store.get, h]

theorem set_then_get_roundtrip_witness :
    (store.Get (store.Set sampleStore "k" "w" 10).2 "k" false 500).1 = ("w", none) :=
  set_then_get_roundtrip sampleStore "k" "w" 10 500 (by decide)

/-- C2: on a live (unexpired) entry holding v, Get(id, consume=true)
returns (v, nil), the entry for id is gone from the resulting mapping, and
any subsequent Get(id, *) with no intervening Set returns the NotFound
error and still leaves no entry for id. -/
theorem consuming_get_consumes_once (s : store) (id : String) (it : item)
    (now : Int) (hlive : s.items id = some it) (hfresh : ¬ now > it.expiration) :
    (store.Get s id true now).1 = (it.answer, none) ∧
    ((store.Get s id true now).2).items id = none ∧
    (∀ (c : Bool) (n : Int),
      (store.Get (store.Get s id true now).2 id c n).1
        = ("", some CaptchaError.ErrIncorrectCaptcha) ∧
      ((store.Get (store.Get s id true now).2 id c n).2).items id = none) := by
  have hget : store.get s id now = .ok it := by
    simp [store.get, hlive, hfresh]
  have h1 : store.Get s id true now
      = ((it.answer, none),
         { s with items := fun k => if k = id then none else s.items k }) := by
    simp [store.Get, store.getAndDel, hget]
  refine ⟨by rw [h1], by rw [h1]; simp, ?_⟩
  intro c n
  rw [h1]
  cases c <;> simp [store.Get, store.getAndDel, store.get]

theorem consuming_get_consumes_once_witness :
    (store.Get sampleStore "id1" true 50).1 = ("v", none) :=
  (consuming_get_consumes_once sampleStore "id1" sampleItem 50 rfl (by decide)).1

/-- C3: on an entry whose expiresAt has passed (now > expiration), Get for
either value of consume returns ("", Expired) and leaves the whole store,
mapping included, unchanged. -/
theorem expired_get_fails_without_deleting (s : store) (id : String)
    (it : item) (now : Int) (hmem : s.items id = some it)
    (hexp : now > it.expiration) (c : Bool) :
    store.Get s id c now = (("", some CaptchaError.ErrExpiredCaptcha), s) := by
  have hget : store.get s id now = .error .ErrExpiredCaptcha := by
    simp [store.get, hmem, hexp]
  cases c <;> simp [store.Get, store.getAndDel, hget]

theorem expired_get_fails_without_deleting_witness :
    store.Get sampleStore "id1" true 200
      = (("", some CaptchaError.ErrExpiredCaptcha), sampleStore) :=
  expired_get_fails_without_deleting sampleStore "id1" sampleItem 200 rfl
    (by decide) true

/-- C4: one sweep pass, relative to its single sampled time `now`, removes
exactly the entries with now > expiration: an entry past expiration maps to
none afterwards, any other entry is kept unchanged, and an absent key stays
absent. The Go function has no error result at all, so the pass cannot
report one. -/
theorem deleteExpired_filters_exactly (s : store) (now : Int) (id : String) :
    ((store.deleteExpired s now).items id)
      = (s.items id).bind
          (fun it => if now > it.expiration then none else some it) := by
  cases h : s.items id <;> simp [store.deleteExpired, h]

/-- C5: Set(id, value) returns nil on every prior store state, and the
resulting mapping holds for id exactly the fresh item whose expiration is
the call time plus the configured expiration, while every other key is
untouched; whatever entry id had before is discarded and nothing reports
whether one existed. -/
theorem set_always_succeeds_and_overwrites (s : store) (id v : String)
    (now : Int) :
    (store.Set s id v now).1 = none ∧
    ((store.Set s id v now).2).items id
      = some { expiration := now + s.expiration, answer := v } ∧
    (∀ k : String, k ≠ id → ((store.Set s id v now).2).items k = s.items k) := by
  refine ⟨rfl, by simp [store.Set], ?_⟩
  intro k hk
  simp [store.Set, hk]

theorem set_always_succeeds_and_overwrites_witness :
    ((store.Set sampleStore "id1" "w" 7).2).items "id2"
      = sampleStore.items "id2" :=
  (set_always_succeeds_and_overwrites sampleStore "id1" "w" 7).2.2 "id2"
    (by decide)

/-- C6: after Set(id, "a") then Set(id, "b"), a non-consuming Get at a time
at which the second entry has not expired returns ("b", nil), and no Get on
id, with any consume flag at any time, can ever return the old value "a". -/
theorem overwrite_makes_old_value_unreachable (s : store) (id : String)
    (n1 n2 n3 : Int) (h : ¬ n3 > n2 + s.expiration) :
    (store.Get (store.Set (store.Set s id "a" n1).2 id "b" n2).2 id false n3).1
      = ("b", none) ∧
    (∀ (c : Bool) (n : Int),
      ((store.Get (store.Set (store.Set s id "a" n1).2 id "b" n2).2 id c n).1).1
        ≠ "a") := by
  constructor
  · simp [store.Set, store.Get, store.get, h]
  · intro c n
    by_cases hn : n > n2 + s.expiration <;>
      cases c <;>
        simp [store.Set, store.Get, store.getAndDel, store.get, hn]

theorem overwrite_makes_old_value_unreachable_witness :
    (store.Get (store.Set (store.Set sampleStore "k" "a" 1).2 "k" "b" 2).2
        "k" false 3).1 = ("b", none) :=
  (overwrite_makes_old_value_unreachable sampleStore "k" 1 2 3 (by decide)).1

/-- C7: when the mapping has no entry for id, Get(id, consume) returns the
NotFound error (the sentinel ErrIncorrectCaptcha) for both values of the
consume flag. -/
theorem missing_key_get_notfound (s : store) (id : String)
    (h : s.items id = none) (c : Bool) (now : Int) :
    (store.Get s id c now).1 = ("", some CaptchaError.ErrIncorrectCaptcha) := by
  have hget : store.get s id now = .error .ErrIncorrectCaptcha := by
    simp [store.get, h]
  cases c <;> simp [store.Get, store.getAndDel, hget]

theorem missing_key_get_notfound_witness :
    (store.Get sampleStore "missing" true 0).1
      = ("", some CaptchaError.ErrIncorrectCaptcha) :=
  missing_key_get_notfound sampleStore "missing" (by decide) true 0

/-- C8: a non-consuming Get returns the store unchanged whatever its
outcome; in particular two consecutive non-consuming Gets on a live entry
both return (v, nil). -/
theorem nonconsuming_get_never_modifies (s : store) (id : String) :
    (∀ now : Int, (store.Get s id false now).2 = s) ∧
    (∀ (it : item) (n1 n2 : Int), s.items id = some it →
      ¬ n1 > it.expiration → ¬ n2 > it.expiration →
      (store.Get s id false n1).1 = (it.answer, none) ∧
      (store.Get (store.Get s id false n1).2 id false n2).1
        = (it.answer, none)) := by
  have hframe : ∀ now : Int, (store.Get s id false now).2 = s := by
    intro now
    rcases hg : store.get s id now with e | it <;> simp [store.Get, hg]
  refine ⟨hframe, ?_⟩
  intro it n1 n2 hmem h1 h2
  rw [hframe n1]
  constructor <;> simp [store.Get, store.get, hmem, h1, h2]

theorem nonconsuming_get_never_modifies_witness :
    (store.Get sampleStore "id1" false 50).1 = ("v", none) ∧
    (store.Get (store.Get sampleStore "id1" false 50).2 "id1" false 60).1
      = ("v", none) :=
  (nonconsuming_get_never_modifies sampleStore "id1").2 sampleItem 50 60 rfl
    (by decide) (by decide)

/-- C9: expiry uses a strict comparison, so at the exact instant
now = expiration the entry is still returned as valid by Get with either
consume flag, and a sweep pass sampling exactly that time keeps the
entry. -/
theorem expiry_comparison_is_strict (s : store) (id : String) (it : item)
    (h : s.items id = some it) :
    (∀ c : Bool, (store.Get s id c it.expiration).1 = (it.answer, none)) ∧
    (store.deleteExpired s it.expiration).items id = some it := by
  have hget : store.get s id it.expiration = .ok it := by
    simp [store.get, h]
  constructor
  · intro c
    cases c <;> simp [store.Get, store.getAndDel, hget]
  · simp [store.deleteExpired, h]

theorem expiry_comparison_is_strict_witness :
    (store.deleteExpired sampleStore sampleItem.expiration).items "id1"
      = some sampleItem :=
  (expiry_comparison_is_strict sampleStore "id1" sampleItem rfl).2

/-- C10: whenever Get returns a non-nil error, with either consume flag,
the value component of its result is the empty string. -/
theorem get_error_implies_empty_value (s : store) (id : String) (c : Bool)
    (now : Int) (e : CaptchaError)
    (h : ((store.Get s id c now).1).2 = some e) :
    ((store.Get s id c now).1).1 = "" := by
  cases c
  · rcases hg : store.get s id now with e2 | it <;>
      simp [store.Get, hg] at h ⊢
  · rcases hg : store.getAndDel s id now with ⟨e2 | it, s2⟩ <;>
      simp [store.Get, hg] at h ⊢

theorem get_error_implies_empty_value_witness :
    ((store.Get sampleStore "missing" false 0).1).1 = "" :=
  get_error_implies_empty_value sampleStore "missing" false 0
    CaptchaError.ErrIncorrectCaptcha (by decide)

end Memstore
